import Mathlib

/-!
# Online school manager — shallow embedding and verification

This file embeds the stateful core of the online-course backend
(`src/server/src/handlers/{enrollments,certificates,quizzes}.ts` and the
payments/coupons handler) in Lean 4 and proves or refutes the frozen
claims about it.

Modelling conventions:

* The relational store is a record of lists of rows (`DB`), one list per
  table of `db/schema.ts`, in table order.  Columns that none of the
  modelled handlers read or write (emails, titles, descriptions, …) are
  omitted; every column a handler touches is present.
* `serial` primary keys are modelled by a single fresh-id counter
  `nextId`; every insert consumes it.  This preserves exactly what the
  handlers rely on: freshness of generated ids.
* Timestamps (`new Date()` / `Date.now()`) are natural numbers
  (milliseconds); each handler call receives the current time `now` as an
  argument and every `new Date()` inside one call yields that value.
* JS `Math.round` is `jsRound`: round half towards positive infinity.
  Monetary `numeric` columns and JS number arithmetic on them are
  modelled with exact rationals.
* The handlers run their SQL statements one by one with no surrounding
  transaction (there is no `db.transaction` anywhere in the repository),
  so each operation returns the state reached after the statements it
  executed *together with* its result: a thrown error does not undo
  earlier statements.  The only statement that can fail mid-operation in
  this model is an insert or update violating the unique constraint on
  `certificates.certificate_code` (the one unique constraint the
  modelled handlers can hit).
* `unenrollFromCourse` builds `eq(lesson_progress.lesson_id, <subquery>)`;
  in Postgres a scalar subquery returning more than one row raises
  `more than one row returned by a subquery used as an expression`, a
  subquery returning no row compares against NULL and matches nothing.
  Both behaviours are modelled.
* JS truthiness is modelled where the handlers use it: a number is falsy
  iff it is 0, a missing/`undefined` value is falsy, a string is falsy
  iff it is empty.
-/

/-- Milliseconds since epoch, as produced by `Date.now()` / `new Date()`. -/
abbrev Timestamp := Nat

/-- JS `Math.round`: round half away from zero towards +∞. -/
def jsRound (q : Rat) : Int := (q + 1/2).floor

/-- `user_role` enum (only the variants the modelled handlers test). -/
inductive Role where
  | student
  | instructor
  | administrator
deriving DecidableEq

/-- `payment_status` enum. -/
inductive PaymentStatus where
  | pending
  | completed
  | failed
  | refunded
deriving DecidableEq

/-- `discount_type` enum. -/
inductive DiscountType where
  | percentage
  | fixed
deriving DecidableEq

/-- Row of `users` (columns the handlers read: `id`, `role`). -/
structure User where
  id : Nat
  role : Role
deriving DecidableEq

/-- Row of `courses` (columns the handlers read: `id`, `price`). -/
structure Course where
  id : Nat
  price : Rat
deriving DecidableEq

/-- Row of `lessons` (columns the handlers read: `id`, `course_id`). -/
structure Lesson where
  id : Nat
  course_id : Nat
deriving DecidableEq

/-- Row of `quizzes` (columns `submitQuiz` reads). -/
structure Quiz where
  id : Nat
  lesson_id : Nat
  passing_score : Int
  max_attempts : Option Int
deriving DecidableEq

/-- Row of `quiz_questions` (columns `submitQuiz` reads). -/
structure QuizQuestion where
  id : Nat
  quiz_id : Nat
  correct_answer : String
  points : Int
  order_index : Int
deriving DecidableEq

/-- Row of `quiz_attempts`.  The JS `answers` record (question-id string →
answer) is a key/value list; a JS object cannot hold a key twice. -/
structure QuizAttempt where
  id : Nat
  quiz_id : Nat
  student_id : Nat
  score : Int
  total_points : Int
  answers : List (Nat × String)
  started_at : Timestamp
  completed_at : Option Timestamp
  is_passed : Bool
deriving DecidableEq

/-- Row of `enrollments`. -/
structure Enrollment where
  id : Nat
  student_id : Nat
  course_id : Nat
  enrollment_date : Timestamp
  completion_date : Option Timestamp
  progress_percentage : Int
  is_completed : Bool
deriving DecidableEq

/-- Row of `certificates`. -/
structure Certificate where
  id : Nat
  student_id : Nat
  course_id : Nat
  certificate_url : Option String
  issued_at : Timestamp
  certificate_code : String
deriving DecidableEq

/-- Row of `payments`. -/
structure Payment where
  id : Nat
  user_id : Nat
  course_id : Nat
  amount : Rat
  original_amount : Rat
  coupon_id : Option Nat
  status : PaymentStatus
  payment_method : Option String
  transaction_id : Option String
  updated_at : Timestamp
deriving DecidableEq

/-- Row of `coupons`. -/
structure Coupon where
  id : Nat
  code : String
  discount_type : DiscountType
  discount_value : Rat
  max_uses : Option Int
  used_count : Int
  expires_at : Option Timestamp
  is_active : Bool
deriving DecidableEq

/-- Row of `lesson_progress`. -/
structure LessonProgress where
  id : Nat
  student_id : Nat
  lesson_id : Nat
  is_completed : Bool
  watch_time_seconds : Int
  completed_at : Option Timestamp
  last_accessed_at : Timestamp
deriving DecidableEq

/-- The relational store: one list per table, rows in table order. -/
structure DB where
  users : List User
  courses : List Course
  lessons : List Lesson
  quizzes : List Quiz
  quizQuestions : List QuizQuestion
  quizAttempts : List QuizAttempt
  enrollments : List Enrollment
  certificates : List Certificate
  payments : List Payment
  coupons : List Coupon
  lessonProgress : List LessonProgress
  nextId : Nat
deriving DecidableEq

/-- `UpdateProgressInput` of `schema.ts` (`is_completed` is optional). -/
structure UpdateProgressInput where
  lesson_id : Nat
  watch_time_seconds : Int
  is_completed : Option Bool
deriving DecidableEq

/-- `EnrollInput` of `schema.ts`. -/
structure EnrollInput where
  course_id : Nat
deriving DecidableEq

/-- `SubmitQuizInput` of `schema.ts`. -/
structure SubmitQuizInput where
  quiz_id : Nat
  answers : List (Nat × String)
deriving DecidableEq

/-- `SELECT * FROM lessons WHERE course_id = $1`. -/
def lessonsOfCourse (db : DB) (courseId : Nat) : List Lesson :=
  db.lessons.filter (fun l => l.course_id == courseId)

/-- The row count of
`lesson_progress JOIN lessons ON lesson_progress.lesson_id = lessons.id
WHERE student_id = $1 AND is_completed AND lessons.course_id = $2`,
as counted by the helper `updateEnrollmentProgress`. -/
def completedLessonCount (db : DB) (studentId courseId : Nat) : Nat :=
  ((db.lessonProgress.filter
      (fun lp => lp.student_id == studentId && lp.is_completed)).flatMap
    (fun lp => db.lessons.filter
      (fun l => l.id == lp.lesson_id && l.course_id == courseId))).length

/-- Helper `updateEnrollmentProgress` of `enrollments.ts` (lines 340–388):
recomputes the progress percentage of the `(student, course)` enrollment
rows.  It returns early when the course has no lessons, and never throws
(its own catch block swallows errors). -/
def updateEnrollmentProgress (db : DB) (now : Timestamp)
    (studentId courseId : Nat) : DB :=
  let totalLessons := (lessonsOfCourse db courseId).length
  if totalLessons == 0 then db
  else
    let completedLessons := completedLessonCount db studentId courseId
    let progressPercentage : Int :=
      jsRound ((completedLessons : Rat) / (totalLessons : Rat) * 100)
    { db with enrollments := db.enrollments.map (fun e =>
        if e.student_id == studentId && e.course_id == courseId then
          { e with progress_percentage := progressPercentage,
                   is_completed := progressPercentage == 100,
                   completion_date :=
                     if progressPercentage == 100 then some now else none }
        else e) }

/-- The `lessons JOIN enrollments` rows read by `updateLessonProgress`:
lessons with the requested id paired with the student's enrollments in the
lesson's course. -/
def lessonEnrollmentJoin (db : DB) (lessonId studentId : Nat) :
    List (Lesson × Enrollment) :=
  (db.lessons.filter (fun l => l.id == lessonId)).flatMap
    (fun l => (db.enrollments.filter
        (fun e => e.course_id == l.course_id && e.student_id == studentId)).map
      (fun e => (l, e)))

/-- The `updateData` applied to an existing progress row by
`updateLessonProgress`: `watch_time_seconds` and `last_accessed_at` always;
`is_completed` only when the input carries it; `completed_at := now`
whenever the carried value is `true`. -/
def progressUpdate (input : UpdateProgressInput) (now : Timestamp)
    (lp : LessonProgress) : LessonProgress :=
  let lp1 := { lp with watch_time_seconds := input.watch_time_seconds,
                       last_accessed_at := now }
  match input.is_completed with
  | none => lp1
  | some v =>
    let lp2 := { lp1 with is_completed := v }
    if v then { lp2 with completed_at := some now } else lp2

/-- The progress row `updateLessonProgress` inserts when none exists
(`input.is_completed || false`, ternary `completed_at`). -/
def progressInsertRow (db : DB) (now : Timestamp) (input : UpdateProgressInput)
    (studentId : Nat) : LessonProgress :=
  { id := db.nextId
    student_id := studentId
    lesson_id := input.lesson_id
    is_completed := input.is_completed.getD false
    watch_time_seconds := input.watch_time_seconds
    completed_at := if input.is_completed.getD false then some now else none
    last_accessed_at := now }

/-- `updateLessonProgress` of `enrollments.ts` (lines 114–191): validates
the lesson/enrollment join, upserts the `(student, lesson)` progress row,
then recomputes the enrollment progress.  Returns the state reached and
the result. -/
def updateLessonProgress (db : DB) (now : Timestamp)
    (input : UpdateProgressInput) (studentId : Nat) :
    DB × Except String LessonProgress :=
  match lessonEnrollmentJoin db input.lesson_id studentId with
  | [] => (db, .error "Lesson not found or student not enrolled in course")
  | (lesson, _) :: _ =>
    match db.lessonProgress.filter (fun lp =>
        lp.student_id == studentId && lp.lesson_id == input.lesson_id) with
    | first :: _ =>
      let db1 := { db with lessonProgress := db.lessonProgress.map (fun lp =>
        if lp.student_id == studentId && lp.lesson_id == input.lesson_id then
          progressUpdate input now lp
        else lp) }
      (updateEnrollmentProgress db1 now studentId lesson.course_id,
       .ok (progressUpdate input now first))
    | [] =>
      let row := progressInsertRow db now input studentId
      let db1 := { db with lessonProgress := db.lessonProgress ++ [row],
                           nextId := db.nextId + 1 }
      (updateEnrollmentProgress db1 now studentId lesson.course_id, .ok row)

/-- `enrollInCourse` of `enrollments.ts` (lines 13–64). -/
def enrollInCourse (db : DB) (now : Timestamp) (input : EnrollInput)
    (studentId : Nat) : DB × Except String Enrollment :=
  if !(db.users.any (fun u => u.id == studentId && u.role == Role.student)) then
    (db, .error "Student not found or invalid role")
  else if !(db.courses.any (fun c => c.id == input.course_id)) then
    (db, .error "Course not found")
  else if db.enrollments.any
      (fun e => e.student_id == studentId && e.course_id == input.course_id) then
    (db, .error "Student already enrolled in this course")
  else
    let e : Enrollment :=
      { id := db.nextId
        student_id := studentId
        course_id := input.course_id
        enrollment_date := now
        completion_date := none
        progress_percentage := 0
        is_completed := false }
    ({ db with enrollments := db.enrollments ++ [e], nextId := db.nextId + 1 },
     .ok e)

/-- The certificate code `completeCourse` builds:
`` `CERT-${courseId}-${studentId}-${Date.now()}` ``. -/
def completeCourseCode (courseId studentId : Nat) (now : Timestamp) : String :=
  "CERT-" ++ toString courseId ++ "-" ++ toString studentId ++ "-" ++ toString now

/-- The certificate code `generateCertificate` builds:
`` `CERT-${Date.now()}-${studentId}-${courseId}` ``. -/
def generateCertificateCode (now : Timestamp) (studentId courseId : Nat) : String :=
  "CERT-" ++ toString now ++ "-" ++ toString studentId ++ "-" ++ toString courseId

/-- `INSERT INTO certificates`, subject to the unique constraint on
`certificate_code` (`db/schema.ts`): the insert fails when the code is
already present. -/
def insertCertificate (db : DB) (cert : Certificate) : Except String DB :=
  if db.certificates.any (fun c => c.certificate_code == cert.certificate_code) then
    .error "duplicate key value violates unique constraint"
  else
    .ok { db with certificates := db.certificates ++ [cert],
                  nextId := db.nextId + 1 }

/-- `completeCourse` of `enrollments.ts` (lines 249–295): marks the
enrollment completed, then inserts a certificate row with no existence
check.  The enrollment update commits before the insert runs. -/
def completeCourse (db : DB) (now : Timestamp) (studentId courseId : Nat) :
    DB × Except String Enrollment :=
  let matches_ := fun (e : Enrollment) =>
    e.student_id == studentId && e.course_id == courseId
  match db.enrollments.filter matches_ with
  | [] => (db, .error "Enrollment not found")
  | first :: _ =>
    let apply_ := fun (e : Enrollment) =>
      { e with is_completed := true, completion_date := some now,
               progress_percentage := 100 }
    let db1 := { db with enrollments := db.enrollments.map (fun e =>
      if matches_ e then apply_ e else e) }
    let cert : Certificate :=
      { id := db1.nextId
        student_id := studentId
        course_id := courseId
        certificate_url := none
        issued_at := now
        certificate_code := completeCourseCode courseId studentId now }
    match insertCertificate db1 cert with
    | .error msg => (db1, .error msg)
    | .ok db2 => (db2, .ok (apply_ first))

/-- `unenrollFromCourse` of `enrollments.ts` (lines 297–337).  The
lesson-progress delete compares `lesson_id` with a scalar subquery over
the course's lessons (`eq(..., db.select(...))`): with no lesson it
matches nothing, with one lesson it matches that lesson, with more than
one Postgres raises an error and nothing is deleted. -/
def unenrollFromCourse (db : DB) (studentId courseId : Nat) :
    DB × Except String Bool :=
  let matches_ := fun (e : Enrollment) =>
    e.student_id == studentId && e.course_id == courseId
  if (db.enrollments.filter matches_).isEmpty then
    (db, .error "Enrollment not found")
  else
    match lessonsOfCourse db courseId with
    | _ :: _ :: _ =>
      (db, .error "more than one row returned by a subquery used as an expression")
    | sub =>
      let keptProgress := db.lessonProgress.filter (fun lp =>
        !(lp.student_id == studentId && sub.any (fun l => l.id == lp.lesson_id)))
      let db1 := { db with lessonProgress := keptProgress }
      let db2 := { db1 with enrollments := db1.enrollments.filter (fun e => !(matches_ e)) }
      (db2, .ok true)

/-- `generateCertificate` of `certificates.ts` (lines 6–78). -/
def generateCertificate (db : DB) (now : Timestamp)
    (studentId courseId : Nat) : DB × Except String Certificate :=
  if !(db.users.any (fun u => u.id == studentId)) then
    (db, .error "Student not found")
  else if !(db.courses.any (fun c => c.id == courseId)) then
    (db, .error "Course not found")
  else if !(db.enrollments.any (fun e =>
      e.student_id == studentId && e.course_id == courseId && e.is_completed)) then
    (db, .error "Student has not completed this course")
  else if db.certificates.any (fun c =>
      c.student_id == studentId && c.course_id == courseId) then
    (db, .error "Certificate already exists for this student and course")
  else
    let code := generateCertificateCode now studentId courseId
    let cert : Certificate :=
      { id := db.nextId
        student_id := studentId
        course_id := courseId
        certificate_url := some ("https://certificates.example.com/" ++ code ++ ".pdf")
        issued_at := now
        certificate_code := code }
    match insertCertificate db cert with
    | .error msg => (db, .error msg)
    | .ok db1 => (db1, .ok cert)

/-- `regenerateCertificate` of `certificates.ts` (lines 133–161): fetches
the certificate by id, then updates it with a fresh
`` `CERT-REGEN-${Date.now()}-${student}-${course}` `` code and URL.  The
update is a single statement; it fails (changing nothing) if another row
already holds the new code. -/
def regenerateCertificate (db : DB) (now : Timestamp) (certificateId : Nat) :
    DB × Except String Certificate :=
  match db.certificates.filter (fun c => c.id == certificateId) with
  | [] => (db, .error "Certificate not found")
  | existing :: _ =>
    let newCode := "CERT-REGEN-" ++ toString now ++ "-"
      ++ toString existing.student_id ++ "-" ++ toString existing.course_id
    if db.certificates.any (fun c =>
        !(c.id == certificateId) && c.certificate_code == newCode) then
      (db, .error "duplicate key value violates unique constraint")
    else
      let apply_ := fun (c : Certificate) =>
        { c with certificate_code := newCode,
                 certificate_url :=
                   some ("https://certificates.example.com/" ++ newCode ++ ".pdf"),
                 issued_at := now }
      let db1 := { db with certificates := db.certificates.map (fun c =>
        if c.id == certificateId then apply_ c else c) }
      (db1, .ok (apply_ existing))

/-- JS truthiness of an optional number: `undefined`/`null` and `0` are
falsy (`if (currentQuiz.max_attempts)`). -/
def jsTruthyNum : Option Int → Bool
  | none => false
  | some v => v != 0

/-- `input.answers[question.id.toString()]`: lookup in the answers
record.  A JS object holds each key at most once. -/
def lookupAnswer (answers : List (Nat × String)) (qid : Nat) : Option String :=
  (answers.find? (fun p => p.1 == qid)).map (fun p => p.2)

/-- `.toLowerCase().trim()` (ASCII case folding; the repository's answers
and tests are ASCII). -/
def normalizeAnswer (s : String) : String := (s.map Char.toLower).trim

/-- One question's grading test in `submitQuiz` (lines 178–181):
`studentAnswer && studentAnswer.toLowerCase().trim() === correct.toLowerCase().trim()`.
The `studentAnswer &&` guard makes a missing *or empty* answer incorrect. -/
def matchedQuestion (answers : List (Nat × String)) (q : QuizQuestion) : Bool :=
  match lookupAnswer answers q.id with
  | none => false
  | some a => a != "" && normalizeAnswer a == normalizeAnswer q.correct_answer

/-- `SELECT * FROM quiz_questions WHERE quiz_id = $1` (no ordering in
`submitQuiz`). -/
def questionsOfQuiz (db : DB) (quizId : Nat) : List QuizQuestion :=
  db.quizQuestions.filter (fun q => q.quiz_id == quizId)

/-- Count of prior `quiz_attempts` rows for `(quiz, student)`. -/
def priorAttemptCount (db : DB) (quizId studentId : Nat) : Nat :=
  (db.quizAttempts.filter (fun a =>
    a.quiz_id == quizId && a.student_id == studentId)).length

/-- `submitQuiz` of `quizzes.ts` (lines 135–213). -/
def submitQuiz (db : DB) (now : Timestamp) (input : SubmitQuizInput)
    (studentId : Nat) : DB × Except String QuizAttempt :=
  match db.quizzes.filter (fun q => q.id == input.quiz_id) with
  | [] => (db, .error "Quiz not found")
  | currentQuiz :: _ =>
    if jsTruthyNum currentQuiz.max_attempts &&
        (currentQuiz.max_attempts.getD 0 ≤ (priorAttemptCount db input.quiz_id studentId : Int)) then
      (db, .error "Maximum attempts exceeded")
    else
      let questions := questionsOfQuiz db input.quiz_id
      let totalPoints : Int := questions.foldl (fun s q => s + q.points) 0
      let score : Int := questions.foldl (fun s q =>
        if matchedQuestion input.answers q then s + q.points else s) 0
      let percentage : Int :=
        if 0 < totalPoints then jsRound ((score : Rat) / (totalPoints : Rat) * 100)
        else 0
      let isPassed := currentQuiz.passing_score ≤ percentage
      let attempt : QuizAttempt :=
        { id := db.nextId
          quiz_id := input.quiz_id
          student_id := studentId
          score := score
          total_points := totalPoints
          answers := input.answers
          started_at := now
          completed_at := some now
          is_passed := isPassed }
      ({ db with quizAttempts := db.quizAttempts ++ [attempt],
                 nextId := db.nextId + 1 },
       .ok attempt)

/-- Result record of `validateCoupon`. -/
structure CouponValidation where
  valid : Bool
  coupon : Option Coupon
  discountAmount : Option Rat
  message : Option String
deriving DecidableEq

/-- `validateCoupon` of the payments handler (`src/unnamed/part_008`,
lines 195–286).  Read-only. -/
def validateCoupon (db : DB) (now : Timestamp) (couponCode : String)
    (courseId : Nat) : CouponValidation :=
  match db.coupons.filter (fun c => c.code == couponCode) with
  | [] => { valid := false, coupon := none, discountAmount := none,
            message := some "Coupon not found" }
  | coupon :: _ =>
    if !coupon.is_active then
      { valid := false, coupon := some coupon, discountAmount := none,
        message := some "Coupon is inactive" }
    else if (match coupon.expires_at with
             | some t => decide (t < now)
             | none => false) then
      { valid := false, coupon := some coupon, discountAmount := none,
        message := some "Coupon has expired" }
    else if (match coupon.max_uses with
             | some m => decide (m ≤ coupon.used_count)
             | none => false) then
      { valid := false, coupon := some coupon, discountAmount := none,
        message := some "Coupon usage limit exceeded" }
    else
      match db.courses.filter (fun c => c.id == courseId) with
      | [] =>
        { valid := false, coupon := some coupon, discountAmount := none,
          message := some "Course not found" }
      | course :: _ =>
        let raw : Rat :=
          if coupon.discount_type == DiscountType.percentage then
            course.price * (coupon.discount_value / 100)
          else coupon.discount_value
        let discountAmount := min raw course.price
        { valid := true, coupon := some coupon,
          discountAmount := some discountAmount,
          message := some "Coupon is valid" }

/-- `refundPayment` of the payments handler (`src/unnamed/part_008`,
lines 132–167): unconditionally sets the payment's status to `refunded`
(whatever it was), then deletes every enrollment row of the payment's
`(user, course)` pair.  The `reason` argument is never used. -/
def refundPayment (db : DB) (now : Timestamp) (paymentId : Nat)
    (reason : String) : DB × Except String Payment :=
  let _ := reason
  let updated := db.payments.map (fun p =>
    if p.id == paymentId then
      { p with status := PaymentStatus.refunded, updated_at := now }
    else p)
  let db1 := { db with payments := updated }
  match updated.filter (fun p => p.id == paymentId) with
  | [] => (db1, .error "Payment not found")
  | payment :: _ =>
    let db2 := { db1 with enrollments := db1.enrollments.filter (fun e =>
      !(e.student_id == payment.user_id && e.course_id == payment.course_id)) }
    (db2, .ok payment)

/-- The progress formula as the spec states it: `round(k/N*100)`, `0` when
the course has no lessons. -/
def specProgress (total completed : Nat) : Int :=
  if total = 0 then 0 else jsRound ((completed : Rat) / (total : Rat) * 100)

/-- The number of *lessons* of the course that the student has completed:
the `k` of the claim (a lesson counts when a completed progress row for it
exists). -/
def specCompletedLessons (db : DB) (studentId courseId : Nat) : Nat :=
  ((lessonsOfCourse db courseId).filter (fun l =>
    db.lessonProgress.any (fun lp =>
      lp.student_id == studentId && lp.lesson_id == l.id && lp.is_completed))).length

/-- Lesson ids are unique (primary key) and at most one progress row per
`(student, lesson)` exists (the upsert in `updateLessonProgress` maintains
this). -/
def ProgressWF (db : DB) : Prop :=
  db.lessons.Pairwise (fun a b => a.id ≠ b.id) ∧
  db.lessonProgress.Pairwise
    (fun a b => ¬(a.student_id = b.student_id ∧ a.lesson_id = b.lesson_id))

instance (db : DB) : Decidable (ProgressWF db) := by
  unfold ProgressWF; infer_instance

/-- Under `ProgressWF`, the join-row count used by the recompute equals
the claim's lesson count. -/
theorem completedLessonCount_eq_spec (db : DB) (sid cid : Nat) (hwf : ProgressWF db) :
    completedLessonCount db sid cid = specCompletedLessons db sid cid := by
  classical
  obtain ⟨hl, hp⟩ := hwf
  set A := (db.lessonProgress.filter
      (fun lp => lp.student_id == sid && lp.is_completed)).flatMap
    (fun lp => db.lessons.filter
      (fun l => l.id == lp.lesson_id && l.course_id == cid)) with hAdef
  set B := (lessonsOfCourse db cid).filter (fun l =>
    db.lessonProgress.any (fun lp =>
      lp.student_id == sid && lp.lesson_id == l.id && lp.is_completed)) with hBdef
  have hA : (A.map Lesson.id).Nodup := by
    unfold List.Nodup
    rw [List.pairwise_map]
    rw [hAdef, List.pairwise_flatMap]
    constructor
    · exact fun lp _ => hl.filter _
    · refine (hp.filter _).imp_of_mem ?_
      intro a b ha hb hab x hx y hy hxy
      have hax := List.of_mem_filter hx
      have hby := List.of_mem_filter hy
      have ha' := List.of_mem_filter ha
      have hb' := List.of_mem_filter hb
      simp only [Bool.and_eq_true, beq_iff_eq] at hax hby ha' hb'
      exact hab ⟨ha'.1.trans hb'.1.symm, by rw [← hax.1, ← hby.1, hxy]⟩
  have hB : (B.map Lesson.id).Nodup := by
    unfold List.Nodup
    rw [List.pairwise_map]
    exact (hl.filter _).filter _
  have hmem : ∀ i, i ∈ A.map Lesson.id ↔ i ∈ B.map Lesson.id := by
    intro i
    simp only [hAdef, hBdef, lessonsOfCourse, List.mem_map, List.mem_flatMap,
      List.mem_filter, List.any_eq_true, Bool.and_eq_true, beq_iff_eq]
    aesop
  have hperm := (List.perm_ext_iff_of_nodup hA hB).2 hmem
  have : A.length = B.length := by
    have := hperm.length_eq
    simpa using this
  simpa [completedLessonCount, specCompletedLessons, hAdef, hBdef] using this

/-- Effect of the recompute on the matching enrollment rows, when the
course has lessons. -/
theorem updateEnrollmentProgress_spec (db : DB) (now : Timestamp) (sid cid : Nat)
    (hN : (lessonsOfCourse db cid).length ≠ 0) :
    ∀ e ∈ (updateEnrollmentProgress db now sid cid).enrollments,
      e.student_id = sid → e.course_id = cid →
      e.progress_percentage =
        jsRound ((completedLessonCount db sid cid : Rat) /
          ((lessonsOfCourse db cid).length : Rat) * 100) ∧
      (e.is_completed = true ↔ e.progress_percentage = 100) ∧
      e.completion_date = (if e.progress_percentage = 100 then some now else none)
  := by
  intro e he hsid hcid
  unfold updateEnrollmentProgress at he
  rw [if_neg (by simpa using hN)] at he
  simp only [List.mem_map] at he
  obtain ⟨e0, he0, rfl⟩ := he
  by_cases hc : (e0.student_id == sid && e0.course_id == cid) = true
  · simp only [if_pos hc]
    refine ⟨trivial, by simp, by simp⟩
  · simp only [if_neg hc] at hsid hcid
    exact absurd (by simp [hsid, hcid]) hc

/-- A map that preserves the `(student_id, lesson_id)` key preserves the
one-row-per-key property. -/
theorem pairwise_keys_map (l : List LessonProgress) (g : LessonProgress → LessonProgress)
    (hg : ∀ lp, (g lp).student_id = lp.student_id ∧ (g lp).lesson_id = lp.lesson_id)
    (h : l.Pairwise (fun a b => ¬(a.student_id = b.student_id ∧ a.lesson_id = b.lesson_id))) :
    (l.map g).Pairwise (fun a b => ¬(a.student_id = b.student_id ∧ a.lesson_id = b.lesson_id)) := by
  rw [List.pairwise_map]
  refine h.imp ?_
  intro a b hab hcon
  exact hab ⟨by rw [← (hg a).1, ← (hg b).1, hcon.1], by rw [← (hg a).2, ← (hg b).2, hcon.2]⟩

/-- Appending a row with a fresh `(student_id, lesson_id)` key preserves the
one-row-per-key property. -/
theorem pairwise_keys_append (l : List LessonProgress) (r : LessonProgress)
    (hr : ∀ lp ∈ l, ¬(lp.student_id = r.student_id ∧ lp.lesson_id = r.lesson_id))
    (h : l.Pairwise (fun a b => ¬(a.student_id = b.student_id ∧ a.lesson_id = b.lesson_id))) :
    (l ++ [r]).Pairwise (fun a b => ¬(a.student_id = b.student_id ∧ a.lesson_id = b.lesson_id)) := by
  rw [List.pairwise_append]
  refine ⟨h, List.pairwise_singleton _ _, ?_⟩
  intro x hx y hy
  simp only [List.mem_singleton] at hy
  subst hy
  exact hr x hx

/-- `progressUpdate` never changes the row's key, its id, or its
`completed_at` unless the input carries `completed = true`. -/
theorem progressUpdate_key (input : UpdateProgressInput) (now : Timestamp)
    (lp : LessonProgress) :
    (progressUpdate input now lp).student_id = lp.student_id ∧
    (progressUpdate input now lp).lesson_id = lp.lesson_id := by
  unfold progressUpdate
  match input.is_completed with
  | none => exact ⟨rfl, rfl⟩
  | some v =>
    cases v
    · exact ⟨rfl, rfl⟩
    · exact ⟨rfl, rfl⟩

/-- The recompute touches only the enrollments table. -/
theorem updateEnrollmentProgress_frame (db : DB) (now : Timestamp) (sid cid : Nat) :
    (updateEnrollmentProgress db now sid cid).lessons = db.lessons ∧
    (updateEnrollmentProgress db now sid cid).lessonProgress = db.lessonProgress := by
  simp only [updateEnrollmentProgress]
  split
  · exact ⟨rfl, rfl⟩
  · exact ⟨rfl, rfl⟩

/-- `lessonsOfCourse` only depends on the lessons table. -/
theorem lessonsOfCourse_congr {db db2 : DB} (h : db.lessons = db2.lessons) (cid : Nat) :
    lessonsOfCourse db cid = lessonsOfCourse db2 cid := by
  simp [lessonsOfCourse, h]

/-- `specCompletedLessons` only depends on lessons and lesson progress. -/
theorem specCompletedLessons_congr (db db2 : DB) (h1 : db.lessons = db2.lessons)
    (h2 : db.lessonProgress = db2.lessonProgress) (sid cid : Nat) :
    specCompletedLessons db sid cid = specCompletedLessons db2 sid cid := by
  simp [specCompletedLessons, lessonsOfCourse, h1, h2]

/-- The head of a successful join lies in the lessons table with the
requested id. -/
theorem lessonEnrollmentJoin_head (db : DB) (lessonId sid : Nat)
    {p : Lesson × Enrollment} {rest : List (Lesson × Enrollment)}
    (h : lessonEnrollmentJoin db lessonId sid = p :: rest) :
    p.1 ∈ db.lessons ∧ p.1.id = lessonId := by
  have hmem : p ∈ lessonEnrollmentJoin db lessonId sid := by
    rw [h]; exact List.mem_cons_self _ _
  unfold lessonEnrollmentJoin at hmem
  simp only [List.mem_flatMap, List.mem_filter, List.mem_map, beq_iff_eq] at hmem
  obtain ⟨l0, ⟨hl0mem, hl0id⟩, e1, _, hpair⟩ := hmem
  have : p.1 = l0 := by rw [← hpair]
  rw [this]
  exact ⟨hl0mem, hl0id⟩

/-- C1: after a successful `updateLessonProgress`, the enrollment rows of
the lesson's course hold `round(k/N*100)` computed over the post state. -/
theorem c1_main (db : DB) (now : Timestamp) (input : UpdateProgressInput)
    (sid : Nat) (db' : DB) (lp : LessonProgress)
    (hwf : ProgressWF db)
    (h : updateLessonProgress db now input sid = (db', .ok lp)) :
    ∃ l ∈ db.lessons, l.id = input.lesson_id ∧
      (lessonsOfCourse db' l.course_id).length ≠ 0 ∧
      ∀ e ∈ db'.enrollments, e.student_id = sid → e.course_id = l.course_id →
        e.progress_percentage =
          specProgress (lessonsOfCourse db' l.course_id).length
            (specCompletedLessons db' sid l.course_id) ∧
        (e.is_completed = true ↔ e.progress_percentage = 100) := by
  unfold updateLessonProgress at h
  cases hjoin : lessonEnrollmentJoin db input.lesson_id sid with
  | nil => rw [hjoin] at h; simp at h
  | cons p rest =>
    rw [hjoin] at h
    obtain ⟨hl0mem, hl0id⟩ := lessonEnrollmentJoin_head db input.lesson_id sid hjoin
    obtain ⟨lesson, e0⟩ := p
    refine ⟨lesson, hl0mem, hl0id, ?_⟩
    cases hfil : db.lessonProgress.filter (fun lp0 =>
        lp0.student_id == sid && lp0.lesson_id == input.lesson_id) with
    | cons first rest2 =>
      rw [hfil] at h
      simp only [Prod.mk.injEq] at h
      obtain ⟨hdb', -⟩ := h
      -- the intermediate state after the update statement
      set db1 : DB := { db with lessonProgress := db.lessonProgress.map (fun lp0 =>
        if lp0.student_id == sid && lp0.lesson_id == input.lesson_id then
          progressUpdate input now lp0
        else lp0) } with hdb1
      have hwf1 : ProgressWF db1 := by
        refine ⟨hwf.1, ?_⟩
        refine pairwise_keys_map _ _ ?_ hwf.2
        intro lp0
        by_cases hc : (lp0.student_id == sid && lp0.lesson_id == input.lesson_id) = true
        · simp only [if_pos hc]
          exact progressUpdate_key input now lp0
        · simp only [if_neg hc]
          exact ⟨trivial, trivial⟩
      have hframe := updateEnrollmentProgress_frame db1 now sid lesson.course_id
      have hlessons : db'.lessons = db.lessons := by
        rw [← hdb']
        exact hframe.1
      have hprog : db'.lessonProgress = db1.lessonProgress := by
        rw [← hdb']
        exact hframe.2
      have hN : (lessonsOfCourse db1 lesson.course_id).length ≠ 0 := by
        have : lesson ∈ lessonsOfCourse db1 lesson.course_id := by
          simp [lessonsOfCourse, hl0mem]
        intro hz
        rw [List.length_eq_zero] at hz
        rw [hz] at this
        exact List.not_mem_nil _ this
      have hNc : lessonsOfCourse db' lesson.course_id = lessonsOfCourse db1 lesson.course_id :=
        lessonsOfCourse_congr (by rw [hlessons]) lesson.course_id
      refine ⟨by rw [hNc]; exact hN, ?_⟩
      intro e he hsid hcid
      rw [← hdb'] at he
      obtain ⟨h1, h2, -⟩ := updateEnrollmentProgress_spec db1 now sid lesson.course_id hN e he hsid hcid
      refine ⟨?_, h2⟩
      rw [h1, specProgress, if_neg (by rw [hNc]; exact hN)]
      rw [hNc, completedLessonCount_eq_spec db1 sid lesson.course_id hwf1,
        specCompletedLessons_congr db' db1 (by rw [hlessons]) hprog _ _]
    | nil =>
      rw [hfil] at h
      simp only [Prod.mk.injEq] at h
      obtain ⟨hdb', -⟩ := h
      set row := progressInsertRow db now input sid with hrow
      set db1 : DB := { db with lessonProgress := db.lessonProgress ++ [row],
                                nextId := db.nextId + 1 } with hdb1
      have hwf1 : ProgressWF db1 := by
        refine ⟨hwf.1, ?_⟩
        refine pairwise_keys_append _ _ ?_ hwf.2
        intro lp0 hlp0 hcon
        have hmemf : lp0 ∈ db.lessonProgress.filter (fun x =>
            x.student_id == sid && x.lesson_id == input.lesson_id) := by
          rw [List.mem_filter]
          refine ⟨hlp0, ?_⟩
          simp only [Bool.and_eq_true, beq_iff_eq]
          exact ⟨hcon.1, hcon.2⟩
        rw [hfil] at hmemf
        exact List.not_mem_nil _ hmemf
      have hframe := updateEnrollmentProgress_frame db1 now sid lesson.course_id
      have hlessons : db'.lessons = db.lessons := by
        rw [← hdb']
        exact hframe.1
      have hprog : db'.lessonProgress = db1.lessonProgress := by
        rw [← hdb']
        exact hframe.2
      have hN : (lessonsOfCourse db1 lesson.course_id).length ≠ 0 := by
        have : lesson ∈ lessonsOfCourse db1 lesson.course_id := by
          simp [lessonsOfCourse, hl0mem]
        intro hz
        rw [List.length_eq_zero] at hz
        rw [hz] at this
        exact List.not_mem_nil _ this
      have hNc : lessonsOfCourse db' lesson.course_id = lessonsOfCourse db1 lesson.course_id :=
        lessonsOfCourse_congr (by rw [hlessons]) lesson.course_id
      refine ⟨by rw [hNc]; exact hN, ?_⟩
      intro e he hsid hcid
      rw [← hdb'] at he
      obtain ⟨h1, h2, -⟩ := updateEnrollmentProgress_spec db1 now sid lesson.course_id hN e he hsid hcid
      refine ⟨?_, h2⟩
      rw [h1, specProgress, if_neg (by rw [hNc]; exact hN)]
      rw [hNc, completedLessonCount_eq_spec db1 sid lesson.course_id hwf1,
        specCompletedLessons_congr db' db1 (by rw [hlessons]) hprog _ _]

/-- Decomposition of a successful `updateLessonProgress`: the course is the
joined lesson's, and the final state is the recompute applied to the state
after the upsert statement. -/
theorem updateLessonProgress_success_shape (db : DB) (now : Timestamp)
    (input : UpdateProgressInput) (sid : Nat) (db' : DB) (lp : LessonProgress)
    (h : updateLessonProgress db now input sid = (db', .ok lp)) :
    ∃ l ∈ db.lessons, l.id = input.lesson_id ∧ ∃ db1 : DB,
      db1.lessons = db.lessons ∧
      db' = updateEnrollmentProgress db1 now sid l.course_id ∧
      ((∃ first rest, db.lessonProgress.filter (fun lp0 =>
           lp0.student_id == sid && lp0.lesson_id == input.lesson_id) = first :: rest ∧
         lp = progressUpdate input now first ∧
         db1.lessonProgress = db.lessonProgress.map (fun lp0 =>
           if lp0.student_id == sid && lp0.lesson_id == input.lesson_id then
             progressUpdate input now lp0
           else lp0)) ∨
       (db.lessonProgress.filter (fun lp0 =>
           lp0.student_id == sid && lp0.lesson_id == input.lesson_id) = [] ∧
         lp = progressInsertRow db now input sid ∧
         db1.lessonProgress = db.lessonProgress ++ [progressInsertRow db now input sid])) := by
  unfold updateLessonProgress at h
  cases hjoin : lessonEnrollmentJoin db input.lesson_id sid with
  | nil => rw [hjoin] at h; simp at h
  | cons p rest =>
    rw [hjoin] at h
    obtain ⟨hl0mem, hl0id⟩ := lessonEnrollmentJoin_head db input.lesson_id sid hjoin
    obtain ⟨lesson, e0⟩ := p
    refine ⟨lesson, hl0mem, hl0id, ?_⟩
    cases hfil : db.lessonProgress.filter (fun lp0 =>
        lp0.student_id == sid && lp0.lesson_id == input.lesson_id) with
    | cons first rest2 =>
      rw [hfil] at h
      simp only [Prod.mk.injEq, Except.ok.injEq] at h
      obtain ⟨hdb', hlp⟩ := h
      exact ⟨{ db with lessonProgress := db.lessonProgress.map (fun lp0 =>
          if lp0.student_id == sid && lp0.lesson_id == input.lesson_id then
            progressUpdate input now lp0
          else lp0) }, rfl, hdb'.symm, Or.inl ⟨first, rest2, rfl, hlp.symm, rfl⟩⟩
    | nil =>
      rw [hfil] at h
      simp only [Prod.mk.injEq, Except.ok.injEq] at h
      obtain ⟨hdb', hlp⟩ := h
      exact ⟨{ db with
          lessonProgress := db.lessonProgress ++ [progressInsertRow db now input sid],
          nextId := db.nextId + 1 }, rfl, hdb'.symm, Or.inr ⟨rfl, hlp.symm, rfl⟩⟩

/-- C3 (amended): the recompute pins `completion_date` to the recomputed
percentage — `now` when it is 100 (already-completed or not), `none`
otherwise. -/
theorem c3_completion_date (db : DB) (now : Timestamp) (input : UpdateProgressInput)
    (sid : Nat) (db' : DB) (lp : LessonProgress)
    (h : updateLessonProgress db now input sid = (db', .ok lp)) :
    ∃ l ∈ db.lessons, l.id = input.lesson_id ∧
      ∀ e ∈ db'.enrollments, e.student_id = sid → e.course_id = l.course_id →
        e.completion_date = (if e.progress_percentage = 100 then some now else none) := by
  obtain ⟨l, hlmem, hlid, db1, hlessons1, hdb', -⟩ :=
    updateLessonProgress_success_shape db now input sid db' lp h
  refine ⟨l, hlmem, hlid, ?_⟩
  intro e he hsid hcid
  have hN : (lessonsOfCourse db1 l.course_id).length ≠ 0 := by
    have hm : l ∈ lessonsOfCourse db1 l.course_id := by
      simp [lessonsOfCourse, hlessons1, hlmem]
    intro hz
    rw [List.length_eq_zero] at hz
    rw [hz] at hm
    exact List.not_mem_nil _ hm
  rw [hdb'] at he
  exact (updateEnrollmentProgress_spec db1 now sid l.course_id hN e he hsid hcid).2.2

/-- When the call carries `completed = true`, the updated row's
`completed_at` is overwritten with `now`. -/
theorem progressUpdate_completed_at_true (input : UpdateProgressInput)
    (now : Timestamp) (lp : LessonProgress) (h : input.is_completed = some true) :
    (progressUpdate input now lp).completed_at = some now := by
  unfold progressUpdate
  rw [h]
  rfl

/-- When the call does not carry `completed = true`, the updated row keeps
its `completed_at`. -/
theorem progressUpdate_completed_at_keep (input : UpdateProgressInput)
    (now : Timestamp) (lp : LessonProgress) (h : input.is_completed ≠ some true) :
    (progressUpdate input now lp).completed_at = lp.completed_at := by
  unfold progressUpdate
  cases hic : input.is_completed with
  | none => rfl
  | some v =>
    cases v
    · rfl
    · exact absurd hic h

/-- C7 (amended): `updateLessonProgress` stamps `completed_at := now` on
*every* call that passes `completed = true` (overwriting an earlier
stamp); calls that pass `completed = false` or omit it leave every
existing `completed_at` unchanged (a fresh row gets `null`). -/
theorem c7_completed_at (db : DB) (now : Timestamp) (input : UpdateProgressInput)
    (sid : Nat) (db' : DB) (lp : LessonProgress)
    (h : updateLessonProgress db now input sid = (db', .ok lp)) :
    (input.is_completed = some true →
      ∀ r ∈ db'.lessonProgress, r.student_id = sid → r.lesson_id = input.lesson_id →
        r.completed_at = some now) ∧
    (input.is_completed ≠ some true →
      (db'.lessonProgress.map LessonProgress.completed_at =
        db.lessonProgress.map LessonProgress.completed_at ∨
       db'.lessonProgress.map LessonProgress.completed_at =
        db.lessonProgress.map LessonProgress.completed_at ++ [none])) := by
  obtain ⟨l, hlmem, hlid, db1, hlessons1, hdb', hshape⟩ :=
    updateLessonProgress_success_shape db now input sid db' lp h
  have hframe := updateEnrollmentProgress_frame db1 now sid l.course_id
  have hprog : db'.lessonProgress = db1.lessonProgress := by
    rw [hdb']
    exact hframe.2
  constructor
  · intro htrue r hr hrs hrl
    rw [hprog] at hr
    rcases hshape with ⟨first, rest, hfil, hlp, hmap⟩ | ⟨hfil, hlp, happ⟩
    · rw [hmap] at hr
      simp only [List.mem_map] at hr
      obtain ⟨r0, hr0, rfl⟩ := hr
      by_cases hc : (r0.student_id == sid && r0.lesson_id == input.lesson_id) = true
      · rw [if_pos hc]
        exact progressUpdate_completed_at_true input now r0 htrue
      · rw [if_neg hc] at hrs hrl ⊢
        exact absurd (by simp [hrs, hrl]) hc
    · rw [happ] at hr
      rcases List.mem_append.1 hr with hold | hnew
      · exfalso
        have hmemf : r ∈ db.lessonProgress.filter (fun x =>
            x.student_id == sid && x.lesson_id == input.lesson_id) := by
          rw [List.mem_filter]
          refine ⟨hold, ?_⟩
          simp [hrs, hrl]
        rw [hfil] at hmemf
        exact List.not_mem_nil _ hmemf
      · simp only [List.mem_singleton] at hnew
        subst hnew
        simp [progressInsertRow, htrue]
  · intro hother
    rw [hprog]
    rcases hshape with ⟨first, rest, hfil, hlp, hmap⟩ | ⟨hfil, hlp, happ⟩
    · left
      rw [hmap, List.map_map]
      refine List.map_congr_left ?_
      intro r0 _
      simp only [Function.comp]
      by_cases hc : (r0.student_id == sid && r0.lesson_id == input.lesson_id) = true
      · rw [if_pos hc]
        exact progressUpdate_completed_at_keep input now r0 hother
      · rw [if_neg hc]
    · right
      rw [happ, List.map_append]
      congr 1
      have : (progressInsertRow db now input sid).completed_at = none := by
        unfold progressInsertRow
        cases hic : input.is_completed with
        | none => rfl
        | some v =>
          cases v
          · rfl
          · exact absurd hic hother
      simp [this]

/-- A one-lesson course whose single lesson the student (id 7) has
completed at time 3: the enrollment sits at 100 % with
`completion_date = 3`. -/
def dbProg : DB :=
  { users := [{ id := 7, role := Role.student }]
    courses := [{ id := 1, price := 50 }]
    lessons := [{ id := 10, course_id := 1 }]
    quizzes := []
    quizQuestions := []
    quizAttempts := []
    enrollments := [{ id := 100, student_id := 7, course_id := 1,
                      enrollment_date := 0, completion_date := some 3,
                      progress_percentage := 100, is_completed := true }]
    certificates := []
    payments := []
    coupons := []
    lessonProgress := [{ id := 101, student_id := 7, lesson_id := 10,
                         is_completed := true, watch_time_seconds := 5,
                         completed_at := some 3, last_accessed_at := 3 }]
    nextId := 200 }

/-- The `updateLessonProgress` input marking lesson 10 completed. -/
def inputComplete : UpdateProgressInput :=
  { lesson_id := 10, watch_time_seconds := 6, is_completed := some true }

/-- The `updateLessonProgress` input marking lesson 10 not completed. -/
def inputUncomplete : UpdateProgressInput :=
  { lesson_id := 10, watch_time_seconds := 6, is_completed := some false }

/-- C1 witness: `c1_main` applied to the concrete one-lesson course. -/
theorem c1_witness :
    ∃ l ∈ dbProg.lessons, l.id = inputComplete.lesson_id ∧
      (lessonsOfCourse (updateLessonProgress dbProg 9 inputComplete 7).1 l.course_id).length ≠ 0 ∧
      ∀ e ∈ (updateLessonProgress dbProg 9 inputComplete 7).1.enrollments,
        e.student_id = 7 → e.course_id = l.course_id →
        e.progress_percentage =
          specProgress (lessonsOfCourse (updateLessonProgress dbProg 9 inputComplete 7).1 l.course_id).length
            (specCompletedLessons (updateLessonProgress dbProg 9 inputComplete 7).1 7 l.course_id) ∧
        (e.is_completed = true ↔ e.progress_percentage = 100) :=
  c1_main dbProg 9 inputComplete 7 (updateLessonProgress dbProg 9 inputComplete 7).1
    { id := 101, student_id := 7, lesson_id := 10, is_completed := true,
      watch_time_seconds := 6, completed_at := some 9, last_accessed_at := 9 }
    (by decide) rfl

/-- C3 counterexample: the enrollment of `dbProg` had
`completion_date = 3`; a recompute whose result is below 100 (the lesson
is reported not completed) *clears* it, contradicting the claim that a
sub-100 recompute leaves a previously set `completion_date` in place. -/
theorem c3_counterexample :
    dbProg.enrollments.map Enrollment.completion_date = [some 3] ∧
    (updateLessonProgress dbProg 9 inputUncomplete 7).2.isOk = true ∧
    (updateLessonProgress dbProg 9 inputUncomplete 7).1.enrollments.map
      Enrollment.progress_percentage = [0] ∧
    (updateLessonProgress dbProg 9 inputUncomplete 7).1.enrollments.map
      Enrollment.completion_date = [none] := by
  refine ⟨rfl, ?_, ?_, ?_⟩ <;> with_unfolding_all decide

/-- C3 witness: `c3_completion_date` applied to the concrete course. -/
theorem c3_witness :
    ∃ l ∈ dbProg.lessons, l.id = inputUncomplete.lesson_id ∧
      ∀ e ∈ (updateLessonProgress dbProg 9 inputUncomplete 7).1.enrollments,
        e.student_id = 7 → e.course_id = l.course_id →
        e.completion_date = (if e.progress_percentage = 100 then some 9 else none) :=
  c3_completion_date dbProg 9 inputUncomplete 7
    (updateLessonProgress dbProg 9 inputUncomplete 7).1
    { id := 101, student_id := 7, lesson_id := 10, is_completed := false,
      watch_time_seconds := 6, completed_at := some 3, last_accessed_at := 9 }
    rfl

/-- C7 counterexample: the progress row of `dbProg` recorded
`completed_at = 3`; a *second* call passing `completed = true` at time 9
overwrites it with 9, contradicting the claim that later completed calls
do not change the recorded `completed_at`. -/
theorem c7_counterexample :
    dbProg.lessonProgress.map LessonProgress.completed_at = [some 3] ∧
    (updateLessonProgress dbProg 9 inputComplete 7).2.isOk = true ∧
    (updateLessonProgress dbProg 9 inputComplete 7).1.lessonProgress.map
      LessonProgress.completed_at = [some 9] := by
  refine ⟨rfl, ?_, ?_⟩ <;> with_unfolding_all decide

/-- C7 witness: `c7_completed_at` applied to the concrete course. -/
theorem c7_witness :
    (inputComplete.is_completed = some true →
      ∀ r ∈ (updateLessonProgress dbProg 9 inputComplete 7).1.lessonProgress,
        r.student_id = 7 → r.lesson_id = inputComplete.lesson_id →
        r.completed_at = some 9) ∧
    (inputComplete.is_completed ≠ some true →
      ((updateLessonProgress dbProg 9 inputComplete 7).1.lessonProgress.map LessonProgress.completed_at =
        dbProg.lessonProgress.map LessonProgress.completed_at ∨
       (updateLessonProgress dbProg 9 inputComplete 7).1.lessonProgress.map LessonProgress.completed_at =
        dbProg.lessonProgress.map LessonProgress.completed_at ++ [none])) :=
  c7_completed_at dbProg 9 inputComplete 7
    (updateLessonProgress dbProg 9 inputComplete 7).1
    { id := 101, student_id := 7, lesson_id := 10, is_completed := true,
      watch_time_seconds := 6, completed_at := some 9, last_accessed_at := 9 }
    rfl

/-- Appending an element related to everything in the list preserves
pairwiseness. -/
theorem pairwise_append_singleton {R : Certificate → Certificate → Prop}
    (l : List Certificate) (r : Certificate)
    (hr : ∀ x ∈ l, R x r) (h : l.Pairwise R) : (l ++ [r]).Pairwise R := by
  rw [List.pairwise_append]
  refine ⟨h, List.pairwise_singleton _ _, ?_⟩
  intro x hx y hy
  simp only [List.mem_singleton] at hy
  subst hy
  exact hr x hx

/-- The certificate invariant of the spec: every certificate row is backed
by a completed enrollment for its pair, and the pair occurs at most once
in the certificates table. -/
def CertInvariant (db : DB) : Prop :=
  (∀ c ∈ db.certificates, ∃ e ∈ db.enrollments,
    e.student_id = c.student_id ∧ e.course_id = c.course_id ∧ e.is_completed = true) ∧
  db.certificates.Pairwise
    (fun a b => ¬(a.student_id = b.student_id ∧ a.course_id = b.course_id))

instance (db : DB) : Decidable (CertInvariant db) := by
  unfold CertInvariant; infer_instance

/-- C2 (amended): `generateCertificate` alone preserves the certificate
invariant — it refuses to issue unless a completed enrollment exists and
no certificate for the pair exists yet, and it does not touch the
enrollments table. -/
theorem generateCertificate_preserves_invariant (db : DB) (now : Timestamp)
    (studentId courseId : Nat) (hinv : CertInvariant db) :
    CertInvariant (generateCertificate db now studentId courseId).1 := by
  obtain ⟨hback, huniq⟩ := hinv
  unfold generateCertificate
  split
  · exact ⟨hback, huniq⟩
  split
  · exact ⟨hback, huniq⟩
  split
  · exact ⟨hback, huniq⟩
  split
  · exact ⟨hback, huniq⟩
  rename_i hu hc he hdup
  unfold insertCertificate
  dsimp only
  by_cases hcode : (db.certificates.any (fun c =>
      c.certificate_code == generateCertificateCode now studentId courseId)) = true
  · rw [if_pos hcode]
    exact ⟨hback, huniq⟩
  · rw [if_neg hcode]
    dsimp only
    constructor
    · intro c hc2
      rcases List.mem_append.1 hc2 with hold | hnew
      · exact hback c hold
      · simp only [List.mem_singleton] at hnew
        subst hnew
        have he2 : ∃ x ∈ db.enrollments, x.student_id = studentId ∧
            x.course_id = courseId ∧ x.is_completed = true := by
          simpa using he
        obtain ⟨e, hemem, hes, hec, hecomp⟩ := he2
        exact ⟨e, hemem, hes, hec, hecomp⟩
    · refine pairwise_append_singleton _ _ ?_ huniq
      intro c hcmem hcon
      have : db.certificates.any (fun x =>
          x.student_id == studentId && x.course_id == courseId) = true := by
        simp only [List.any_eq_true, Bool.and_eq_true, beq_iff_eq]
        exact ⟨c, hcmem, hcon.1, hcon.2⟩
      rw [this] at hdup
      exact absurd rfl hdup

/-- Seed state: one student and one course with no lessons.  Users and
courses are created by collaborators outside the modelled core; every
other row below is produced by the modelled operations themselves. -/
def dbSeed : DB :=
  { users := [{ id := 7, role := Role.student }]
    courses := [{ id := 1, price := 50 }]
    lessons := []
    quizzes := []
    quizQuestions := []
    quizAttempts := []
    enrollments := []
    certificates := []
    payments := []
    coupons := []
    lessonProgress := []
    nextId := 100 }

/-- Reachable state: enroll student 7 in course 1, then `completeCourse`
(which issues the certificate).  The certificate invariant still holds
here. -/
def dbC2mid : DB :=
  (completeCourse (enrollInCourse dbSeed 1 { course_id := 1 } 7).1 3 7 1).1

/-- C2 counterexample: from the reachable state `dbC2mid` (invariant
holds), a successful `unenrollFromCourse` deletes the enrollment but not
the certificate, leaving a certificate with no backing enrollment. -/
theorem c2_counterexample :
    CertInvariant dbC2mid ∧
    (unenrollFromCourse dbC2mid 7 1).2.isOk = true ∧
    ¬ CertInvariant (unenrollFromCourse dbC2mid 7 1).1 := by
  refine ⟨?_, ?_, ?_⟩ <;> with_unfolding_all decide

/-- C2 witness: the preservation theorem applied to the concrete
reachable state. -/
theorem c2_witness :
    CertInvariant (generateCertificate dbC2mid 9 7 1).1 :=
  generateCertificate_preserves_invariant dbC2mid 9 7 1 (by with_unfolding_all decide)

/-- C8 (amended): `completeCourse` runs its enrollment update and its
certificate insert as two separately committed statements; when the
insert fails on the `certificate_code` unique constraint, the operation
throws but the enrollment rows remain updated to completed. -/
theorem completeCourse_partial_write (db : DB) (now : Timestamp)
    (studentId courseId : Nat)
    (hme : db.enrollments.any (fun e =>
      e.student_id == studentId && e.course_id == courseId) = true)
    (hcode : db.certificates.any (fun c =>
      c.certificate_code == completeCourseCode courseId studentId now) = true) :
    (completeCourse db now studentId courseId).2 =
      .error "duplicate key value violates unique constraint" ∧
    ∀ e ∈ (completeCourse db now studentId courseId).1.enrollments,
      e.student_id = studentId → e.course_id = courseId →
      e.is_completed = true ∧ e.progress_percentage = 100 ∧
      e.completion_date = some now := by
  unfold completeCourse
  dsimp only
  cases hfil : db.enrollments.filter (fun e =>
      e.student_id == studentId && e.course_id == courseId) with
  | nil =>
    exfalso
    simp only [List.any_eq_true] at hme
    obtain ⟨e, hemem, hepred⟩ := hme
    have : e ∈ db.enrollments.filter (fun e =>
        e.student_id == studentId && e.course_id == courseId) :=
      List.mem_filter.2 ⟨hemem, hepred⟩
    rw [hfil] at this
    exact List.not_mem_nil _ this
  | cons first rest =>
    dsimp only
    unfold insertCertificate
    rw [if_pos (by simpa using hcode)]
    dsimp only
    refine ⟨rfl, ?_⟩
    intro e he hsid hcid
    simp only [List.mem_map] at he
    obtain ⟨e0, he0, rfl⟩ := he
    by_cases hcnd : (e0.student_id == studentId && e0.course_id == courseId) = true
    · simp only [if_pos hcnd]
      exact ⟨trivial, trivial, trivial⟩
    · simp only [if_neg hcnd] at hsid hcid
      exact absurd (by simp [hsid, hcid]) hcnd

/-- Seed for the C8 chain: student 7, two courses (3 and 9), one lesson
in course 9. -/
def dbSeed8 : DB :=
  { users := [{ id := 7, role := Role.student }]
    courses := [{ id := 3, price := 50 }, { id := 9, price := 80 }]
    lessons := [{ id := 20, course_id := 9 }]
    quizzes := []
    quizQuestions := []
    quizAttempts := []
    enrollments := []
    certificates := []
    payments := []
    coupons := []
    lessonProgress := []
    nextId := 100 }

/-- Reachable state with a certificate whose code collides with the one
`completeCourse` will generate for `(student 7, course 3)` at time 9:
enroll in course 9, complete its lesson, let `generateCertificate` issue
`CERT-3-7-9` at time 3, then enroll in course 3. -/
def dbC8pre : DB :=
  (enrollInCourse
    (generateCertificate
      (updateLessonProgress
        (enrollInCourse dbSeed8 1 { course_id := 9 } 7).1
        2 { lesson_id := 20, watch_time_seconds := 60, is_completed := some true } 7).1
      3 7 9).1
    4 { course_id := 3 } 7).1

/-- C8 counterexample: from the reachable state `dbC8pre`, the
`completeCourse` call at time 9 *fails* (certificate-code collision with
`CERT-3-7-9`) yet its enrollment update is observable: the `(7, 3)`
enrollment flips from not completed to completed. -/
theorem c8_counterexample :
    (completeCourse dbC8pre 9 7 3).2.isOk = false ∧
    (dbC8pre.enrollments.filter (fun e =>
      e.student_id == 7 && e.course_id == 3)).map Enrollment.is_completed = [false] ∧
    ((completeCourse dbC8pre 9 7 3).1.enrollments.filter (fun e =>
      e.student_id == 7 && e.course_id == 3)).map Enrollment.is_completed = [true] := by
  refine ⟨?_, ?_, ?_⟩ <;> with_unfolding_all decide

/-- C8 witness: the partial-write theorem applied to the concrete
reachable state. -/
theorem c8_witness :
    (completeCourse dbC8pre 9 7 3).2 =
      .error "duplicate key value violates unique constraint" ∧
    ∀ e ∈ (completeCourse dbC8pre 9 7 3).1.enrollments,
      e.student_id = 7 → e.course_id = 3 →
      e.is_completed = true ∧ e.progress_percentage = 100 ∧
      e.completion_date = some 9 :=
  completeCourse_partial_write dbC8pre 9 7 3 (by with_unfolding_all decide)
    (by with_unfolding_all decide)

/-- Folding the conditional point sum equals summing over the matched
questions. -/
theorem foldl_points_if_eq_filter (l : List QuizQuestion)
    (p : QuizQuestion → Bool) (init : Int) :
    l.foldl (fun s q => if p q then s + q.points else s) init =
    (l.filter p).foldl (fun s q => s + q.points) init := by
  induction l generalizing init with
  | nil => rfl
  | cons x xs ih =>
    by_cases hx : p x = true
    · simp only [List.foldl_cons, List.filter_cons, hx, if_pos]
      exact ih _
    · simp only [List.foldl_cons, List.filter_cons, hx, if_neg, Bool.false_eq_true,
        not_false_eq_true]
      exact ih _

/-- Fields of a successful `submitQuiz` result: the quiz is the first row
matching the id, the score sums the points of the matched questions,
`total_points` sums all points, and `is_passed` compares the rounded
percentage (0 for an empty quiz) against the quiz's passing score. -/
theorem submitQuiz_success_fields (db : DB) (now : Timestamp)
    (input : SubmitQuizInput) (sid : Nat) (db' : DB) (att : QuizAttempt)
    (h : submitQuiz db now input sid = (db', .ok att)) :
    ∃ qz rest, db.quizzes.filter (fun q => q.id == input.quiz_id) = qz :: rest ∧
      att.score = ((questionsOfQuiz db input.quiz_id).filter
        (matchedQuestion input.answers)).foldl (fun s q => s + q.points) 0 ∧
      att.total_points =
        (questionsOfQuiz db input.quiz_id).foldl (fun s q => s + q.points) 0 ∧
      att.is_passed = decide (qz.passing_score ≤
        (if 0 < att.total_points then
          jsRound ((att.score : Rat) / (att.total_points : Rat) * 100) else 0)) := by
  unfold submitQuiz at h
  cases hq : db.quizzes.filter (fun q => q.id == input.quiz_id) with
  | nil => rw [hq] at h; simp at h
  | cons qz rest =>
    rw [hq] at h
    dsimp only at h
    refine ⟨qz, rest, rfl, ?_⟩
    split at h
    · simp at h
    · simp only [Prod.mk.injEq, Except.ok.injEq] at h
      obtain ⟨-, hatt⟩ := h
      subst hatt
      refine ⟨?_, rfl, rfl⟩
      exact foldl_points_if_eq_filter _ _ _

/-- C4: grading of a successful submission — score over matched
questions, total over all questions, pass iff the rounded percentage
reaches the quiz's passing score. -/
theorem submitQuiz_grading (db : DB) (now : Timestamp)
    (input : SubmitQuizInput) (sid : Nat) (db' : DB) (att : QuizAttempt)
    (h : submitQuiz db now input sid = (db', .ok att)) :
    ∃ qz rest, db.quizzes.filter (fun q => q.id == input.quiz_id) = qz :: rest ∧
      att.score = ((questionsOfQuiz db input.quiz_id).filter
        (matchedQuestion input.answers)).foldl (fun s q => s + q.points) 0 ∧
      att.total_points =
        (questionsOfQuiz db input.quiz_id).foldl (fun s q => s + q.points) 0 ∧
      (att.is_passed = true ↔ qz.passing_score ≤
        (if 0 < att.total_points then
          jsRound ((att.score : Rat) / (att.total_points : Rat) * 100) else 0)) := by
  obtain ⟨qz, rest, hq, hs, ht, hp⟩ :=
    submitQuiz_success_fields db now input sid db' att h
  refine ⟨qz, rest, hq, hs, ht, ?_⟩
  rw [hp]
  simp

/-- C10: a submitted answer equal to the empty string never matches —
even against an empty or whitespace-only `correct_answer` — and the score
counts matched questions only. -/
theorem submitQuiz_empty_answer (db : DB) (now : Timestamp)
    (input : SubmitQuizInput) (sid : Nat) (db' : DB) (att : QuizAttempt)
    (q : QuizQuestion)
    (h : submitQuiz db now input sid = (db', .ok att))
    (hqmem : q ∈ questionsOfQuiz db input.quiz_id)
    (ha : lookupAnswer input.answers q.id = some "") :
    matchedQuestion input.answers q = false ∧
    att.score = ((questionsOfQuiz db input.quiz_id).filter
      (matchedQuestion input.answers)).foldl (fun s q => s + q.points) 0 := by
  constructor
  · unfold matchedQuestion
    rw [ha]
    rfl
  · obtain ⟨-, -, -, hs, -⟩ := submitQuiz_success_fields db now input sid db' att h
    exact hs


/-- C5 (amended): with a nonzero `max_attempts = m`, `submitQuiz` fails
with `Maximum attempts exceeded` exactly when the student already has at
least `m` attempt rows; with `max_attempts` unset *or zero* it never
fails (the JS `if (quiz.max_attempts)` treats 0 as unset). -/
theorem submitQuiz_attempt_limit (db : DB) (now : Timestamp)
    (input : SubmitQuizInput) (sid : Nat) (qz : Quiz) (rest : List Quiz)
    (hq : db.quizzes.filter (fun q => q.id == input.quiz_id) = qz :: rest) :
    ((submitQuiz db now input sid).2 = .error "Maximum attempts exceeded" ↔
      ∃ m, qz.max_attempts = some m ∧ m ≠ 0 ∧
        m ≤ (priorAttemptCount db input.quiz_id sid : Int)) ∧
    ((qz.max_attempts = none ∨ qz.max_attempts = some 0) →
      (submitQuiz db now input sid).2.isOk = true) := by
  unfold submitQuiz
  rw [hq]
  dsimp only
  by_cases hcond : (jsTruthyNum qz.max_attempts &&
      decide (qz.max_attempts.getD 0 ≤ (priorAttemptCount db input.quiz_id sid : Int))) = true
  · rw [if_pos hcond]
    simp only [Bool.and_eq_true, decide_eq_true_eq] at hcond
    obtain ⟨htr, hle⟩ := hcond
    constructor
    · constructor
      · intro _
        cases hma : qz.max_attempts with
        | none =>
          rw [hma] at htr
          exact absurd htr (by simp [jsTruthyNum])
        | some m =>
          refine ⟨m, rfl, ?_, ?_⟩
          · rw [hma] at htr
            simpa [jsTruthyNum] using htr
          · rw [hma] at hle
            simpa using hle
      · intro _
        rfl
    · intro hnone
      exfalso
      rcases hnone with hma | hma <;>
        (rw [hma] at htr; simp [jsTruthyNum] at htr)
  · rw [if_neg hcond]
    constructor
    · constructor
      · intro habs
        exact absurd habs (by simp)
      · rintro ⟨m, hma, hm0, hmle⟩
        exfalso
        apply hcond
        rw [hma]
        simp only [jsTruthyNum, Option.getD_some, Bool.and_eq_true, bne_iff_ne,
          decide_eq_true_eq]
        exact ⟨hm0, hmle⟩
    · intro _
      rfl

/-- The grading-claim counterexample/witness quiz: one 2-point question
whose `correct_answer` is a single space (it trims to the empty string);
`passing_score` 50, no attempt limit. -/
def dbQuiz : DB :=
  { dbSeed with
      lessons := [{ id := 20, course_id := 1 }]
      quizzes := [{ id := 2, lesson_id := 20, passing_score := 50, max_attempts := none }]
      quizQuestions := [{ id := 3, quiz_id := 2, correct_answer := " ", points := 2,
                          order_index := 0 }] }

/-- Grading as claim C4 words it — the submitted answer, *when present*,
is compared under lowercase/trimmed equality, with no non-empty
requirement.  Modelled from the claim sentence, for refutation. -/
def claimMatchedQuestion (answers : List (Nat × String)) (q : QuizQuestion) : Bool :=
  match lookupAnswer answers q.id with
  | none => false
  | some a => normalizeAnswer a == normalizeAnswer q.correct_answer

/-- C4 counterexample: an answer map carrying the empty string for the
question.  The claim's comparison (present answer, trimmed equality with
the space) awards the 2 points; the code scores 0 because the empty
answer is falsy. -/
theorem c4_counterexample :
    (submitQuiz dbQuiz 5 { quiz_id := 2, answers := [(3, "")] } 7).2.toOption.map
      QuizAttempt.score = some 0 ∧
    ((questionsOfQuiz dbQuiz 2).filter
      (claimMatchedQuestion [(3, "")])).foldl (fun s q => s + q.points) 0 = 2 ∧
    (0 : Int) ≠ 2 := by
  refine ⟨?_, ?_, ?_⟩ <;> with_unfolding_all decide

/-- C4 witness: the grading theorem at the concrete quiz. -/
theorem c4_witness :
    ∃ qz rest, dbQuiz.quizzes.filter (fun q => q.id == 2) = qz :: rest ∧
      (0 : Int) = ((questionsOfQuiz dbQuiz 2).filter
        (matchedQuestion [(3, "")])).foldl (fun s q => s + q.points) 0 ∧
      (2 : Int) = (questionsOfQuiz dbQuiz 2).foldl (fun s q => s + q.points) 0 ∧
      (false = true ↔ qz.passing_score ≤
        (if (0:Int) < 2 then jsRound ((0 : Rat) / (2 : Rat) * 100) else 0)) :=
  submitQuiz_grading dbQuiz 5 { quiz_id := 2, answers := [(3, "")] } 7
    (submitQuiz dbQuiz 5 { quiz_id := 2, answers := [(3, "")] } 7).1
    { id := 100, quiz_id := 2, student_id := 7, score := 0, total_points := 2,
      answers := [(3, "")], started_at := 5, completed_at := some 5,
      is_passed := false }
    (by with_unfolding_all rfl)

/-- C10 witness: the empty-answer theorem at the concrete quiz, whose
`correct_answer` trims to the empty string. -/
theorem c10_witness :
    matchedQuestion [(3, "")]
      { id := 3, quiz_id := 2, correct_answer := " ", points := 2, order_index := 0 } = false ∧
    (0 : Int) = ((questionsOfQuiz dbQuiz 2).filter
      (matchedQuestion [(3, "")])).foldl (fun s q => s + q.points) 0 :=
  submitQuiz_empty_answer dbQuiz 5 { quiz_id := 2, answers := [(3, "")] } 7
    (submitQuiz dbQuiz 5 { quiz_id := 2, answers := [(3, "")] } 7).1
    { id := 100, quiz_id := 2, student_id := 7, score := 0, total_points := 2,
      answers := [(3, "")], started_at := 5, completed_at := some 5,
      is_passed := false }
    { id := 3, quiz_id := 2, correct_answer := " ", points := 2, order_index := 0 }
    (by with_unfolding_all rfl)
    (by with_unfolding_all decide)
    (by with_unfolding_all decide)

/-- The attempt-limit quiz with `max_attempts = 0` (legal for the
`createQuizInput` schema, which only requires an integer). -/
def dbQuiz0 : DB :=
  { dbQuiz with
      quizzes := [{ id := 2, lesson_id := 20, passing_score := 50, max_attempts := some 0 }] }

/-- C5 counterexample: `max_attempts` is *set* (to 0) and the prior
attempt count 0 has already reached it, yet the submission succeeds —
the claim predicts a `MaxAttemptsExceeded` failure. -/
theorem c5_counterexample :
    dbQuiz0.quizzes.map Quiz.max_attempts = [some 0] ∧
    priorAttemptCount dbQuiz0 2 7 = 0 ∧
    (submitQuiz dbQuiz0 5 { quiz_id := 2, answers := [] } 7).2.isOk = true := by
  refine ⟨rfl, rfl, ?_⟩
  with_unfolding_all decide

/-- C5 witness: the attempt-limit theorem at the concrete quiz with
`max_attempts` unset. -/
theorem c5_witness :
    ((submitQuiz dbQuiz 5 { quiz_id := 2, answers := [] } 7).2 =
        .error "Maximum attempts exceeded" ↔
      ∃ m, (none : Option Int) = some m ∧ m ≠ 0 ∧
        m ≤ (priorAttemptCount dbQuiz 2 7 : Int)) ∧
    (((none : Option Int) = none ∨ (none : Option Int) = some 0) →
      (submitQuiz dbQuiz 5 { quiz_id := 2, answers := [] } 7).2.isOk = true) :=
  submitQuiz_attempt_limit dbQuiz 5 { quiz_id := 2, answers := [] } 7
    { id := 2, lesson_id := 20, passing_score := 50, max_attempts := none } []
    (by with_unfolding_all decide)

/-- C6: whenever `validateCoupon` returns a discount, the validation
succeeded and — given the schema facts that stored discount values are
positive (`createCouponInputSchema`) and course prices nonnegative — the
discount lies in `[0, price]` of the course it found. -/
theorem validateCoupon_discount_range (db : DB) (now : Timestamp)
    (couponCode : String) (courseId : Nat) (d : Rat)
    (hcoup : ∀ c ∈ db.coupons, 0 ≤ c.discount_value)
    (hprice : ∀ c ∈ db.courses, 0 ≤ c.price)
    (hd : (validateCoupon db now couponCode courseId).discountAmount = some d) :
    (validateCoupon db now couponCode courseId).valid = true ∧
    ∃ course rest, db.courses.filter (fun c => c.id == courseId) = course :: rest ∧
      0 ≤ d ∧ d ≤ course.price := by
  unfold validateCoupon at hd ⊢
  cases hcf : db.coupons.filter (fun c => c.code == couponCode) with
  | nil =>
    rw [hcf] at hd
    simp at hd
  | cons coupon crest =>
    rw [hcf] at hd
    dsimp only at hd ⊢
    have hcmem : coupon ∈ db.coupons := by
      have : coupon ∈ db.coupons.filter (fun c => c.code == couponCode) := by
        rw [hcf]
        exact List.mem_cons_self _ _
      exact List.mem_of_mem_filter this
    split at hd
    · simp at hd
    rename_i hactive
    split at hd
    · simp at hd
    rename_i hexp
    split at hd
    · simp at hd
    rename_i hlim
    cases hcs : db.courses.filter (fun c => c.id == courseId) with
    | nil =>
      rw [hcs] at hd
      simp at hd
    | cons course csrest =>
      rw [hcs] at hd
      dsimp only at hd ⊢
      have hcomem : course ∈ db.courses := by
        have : course ∈ db.courses.filter (fun c => c.id == courseId) := by
          rw [hcs]
          exact List.mem_cons_self _ _
        exact List.mem_of_mem_filter this
      have hdv := hcoup coupon hcmem
      have hp := hprice course hcomem
      simp only [Option.some.injEq] at hd
      have hraw : 0 ≤ (if coupon.discount_type == DiscountType.percentage then
          course.price * (coupon.discount_value / 100) else coupon.discount_value) := by
        split
        · exact mul_nonneg hp (by positivity)
        · exact hdv
      refine ⟨?_, course, csrest, rfl, ?_, ?_⟩
      · rw [if_neg hactive, if_neg hexp, if_neg hlim]
      · rw [← hd]
        exact le_min hraw hp
      · rw [← hd]
        exact min_le_right _ _

/-- The coupon/course pair of Scenario C: a 20 % coupon against a course
priced 99.99. -/
def dbCoupon : DB :=
  { dbSeed with
      courses := [{ id := 1, price := (9999 : Rat) / 100 }]
      coupons := [{ id := 5, code := "SAVE20", discount_type := DiscountType.percentage,
                    discount_value := 20, max_uses := none, used_count := 0,
                    expires_at := none, is_active := true }] }

/-- C6 witness: the range theorem at the concrete 20 % coupon; the
returned discount 19.998 lies within [0, 99.99]. -/
theorem c6_witness :
    (validateCoupon dbCoupon 0 "SAVE20" 1).valid = true ∧
    ∃ course rest, dbCoupon.courses.filter (fun c => c.id == 1) = course :: rest ∧
      0 ≤ (9999 : Rat) / 500 ∧ (9999 : Rat) / 500 ≤ course.price :=
  validateCoupon_discount_range dbCoupon 0 "SAVE20" 1 ((9999 : Rat) / 500)
    (by with_unfolding_all decide)
    (by with_unfolding_all decide)
    (by with_unfolding_all rfl)

/-- The status update of `refundPayment` keeps every payment's id. -/
theorem refundUpdate_id (now : Timestamp) (paymentId : Nat) (x : Payment) :
    (if x.id == paymentId then
      { x with status := PaymentStatus.refunded, updated_at := now }
    else x).id = x.id := by
  by_cases hx : (x.id == paymentId) = true
  · rw [if_pos hx]
  · rw [if_neg hx]

/-- C9: `refundPayment` succeeds for any existing payment whatever its
status, marks it refunded, and deletes exactly the enrollment rows of the
payment's `(user, course)` pair; it fails — leaving the state unchanged —
only when no payment with the id exists. -/
theorem refundPayment_spec (db : DB) (now : Timestamp) (paymentId : Nat)
    (reason : String) :
    (∀ p, db.payments.filter (fun x => x.id == paymentId) = [p] →
      (refundPayment db now paymentId reason).2 =
        .ok { p with status := PaymentStatus.refunded, updated_at := now } ∧
      (∀ e ∈ (refundPayment db now paymentId reason).1.enrollments,
        ¬(e.student_id = p.user_id ∧ e.course_id = p.course_id)) ∧
      (∀ e ∈ db.enrollments,
        ¬(e.student_id = p.user_id ∧ e.course_id = p.course_id) →
        e ∈ (refundPayment db now paymentId reason).1.enrollments)) ∧
    (db.payments.filter (fun x => x.id == paymentId) = [] →
      refundPayment db now paymentId reason = (db, .error "Payment not found")) := by
  have hfmap : (db.payments.map (fun x => if x.id == paymentId then
        { x with status := PaymentStatus.refunded, updated_at := now } else x)).filter
        (fun x => x.id == paymentId) =
      (db.payments.filter (fun x => x.id == paymentId)).map (fun x =>
        if x.id == paymentId then
          { x with status := PaymentStatus.refunded, updated_at := now } else x) := by
    rw [List.filter_map]
    congr 1
    refine List.filter_congr ?_
    intro x _
    simp only [Function.comp]
    rw [refundUpdate_id]
  constructor
  · intro p hp
    simp only [refundPayment]
    rw [hfmap, hp]
    have hpid : (p.id == paymentId) = true := by
      have hmemp : p ∈ db.payments.filter (fun x => x.id == paymentId) := by
        rw [hp]
        exact List.mem_cons_self _ _
      simpa using List.of_mem_filter hmemp
    simp only [List.map_cons, List.map_nil]
    rw [if_pos hpid]
    refine ⟨rfl, ?_, ?_⟩
    · intro e he hcon
      have := List.of_mem_filter he
      simp only [Bool.not_eq_true', Bool.and_eq_true, beq_iff_eq] at this
      rw [Bool.and_eq_false_iff] at this
      rcases this with h1 | h2
      · rw [beq_eq_false_iff_ne] at h1
        exact h1 hcon.1
      · rw [beq_eq_false_iff_ne] at h2
        exact h2 hcon.2
    · intro e he hcon
      refine List.mem_filter.2 ⟨he, ?_⟩
      simp only [Bool.not_eq_true']
      rw [Bool.and_eq_false_iff]
      by_cases h1 : e.student_id = p.user_id
      · right
        rw [beq_eq_false_iff_ne]
        intro h2
        exact hcon ⟨h1, h2⟩
      · left
        rw [beq_eq_false_iff_ne]
        exact h1
  · intro hnil
    simp only [refundPayment]
    rw [hfmap, hnil]
    have hmapid : db.payments.map (fun x => if x.id == paymentId then
        { x with status := PaymentStatus.refunded, updated_at := now } else x) =
        db.payments := by
      refine List.map_congr_left ?_ |>.trans (List.map_id _)
      intro x hx
      have hxne : (x.id == paymentId) = false := by
        by_cases hc : (x.id == paymentId) = true
        · exfalso
          have hmemx : x ∈ db.payments.filter (fun y => y.id == paymentId) :=
            List.mem_filter.2 ⟨hx, hc⟩
          rw [hnil] at hmemx
          exact List.not_mem_nil _ hmemx
        · cases hv : (x.id == paymentId)
          · rfl
          · exact absurd hv hc
      rw [hxne]
      simp
    simp only [List.map_nil]
    rw [hmapid]

/-- A state with a payment of status `refunded` already (id 40, user 7,
course 1) and an enrollment of the same pair created by *direct*
enrollment (`enrollInCourse`), not by the payment. -/
def dbRefund : DB :=
  { (enrollInCourse dbSeed 1 { course_id := 1 } 7).1 with
      payments := [{ id := 40, user_id := 7, course_id := 1, amount := 50,
                     original_amount := 50, coupon_id := none,
                     status := PaymentStatus.refunded, payment_method := some "card",
                     transaction_id := none, updated_at := 0 }] }

/-- C9 witness: refunding the already-refunded payment succeeds and
deletes the directly created enrollment of the pair. -/
theorem c9_witness :
    (refundPayment dbRefund 9 40 "requested").2 =
      .ok { id := 40, user_id := 7, course_id := 1, amount := 50,
            original_amount := 50, coupon_id := none,
            status := PaymentStatus.refunded, payment_method := some "card",
            transaction_id := none, updated_at := 9 } ∧
    (∀ e ∈ (refundPayment dbRefund 9 40 "requested").1.enrollments,
      ¬(e.student_id = 7 ∧ e.course_id = 1)) ∧
    (∀ e ∈ dbRefund.enrollments, ¬(e.student_id = 7 ∧ e.course_id = 1) →
      e ∈ (refundPayment dbRefund 9 40 "requested").1.enrollments) :=
  (refundPayment_spec dbRefund 9 40 "requested").1
    { id := 40, user_id := 7, course_id := 1, amount := 50,
      original_amount := 50, coupon_id := none,
      status := PaymentStatus.refunded, payment_method := some "card",
      transaction_id := none, updated_at := 0 }
    (by with_unfolding_all decide)
